import Mathlib

/-!
Verification of the BatterySim battery charge/discharge simulator
(`batterySim.py`): a shallow embedding over the reals of the charge
model, the eclipse solar-power model, the control-loop tick, the
validated putters for the target voltage and the eclipse flag, and the
startup validation, together with proofs of the specified properties.
-/

open Real

namespace BatterySim

/-! ## Global constants (module level and `BatteryChargeIOC` class attributes) -/

/-- seconds_per_hour = 3600 -/
def seconds_per_hour : ℝ := 3600

/-- hours_per_second = 1 / seconds_per_hour -/
noncomputable def hours_per_second : ℝ := 1 / seconds_per_hour

/-- battery_capacity = 150 (Wh) -/
def battery_capacity : ℝ := 150

/-- battery_nominal_voltage = 34 (Volts) -/
def battery_nominal_voltage : ℝ := 34

/-- model_constant = 80 (Wh) -/
def model_constant : ℝ := 80

/-- max_voltage = log(battery_capacity / model_constant + 1) * battery_nominal_voltage -/
noncomputable def max_voltage : ℝ :=
  Real.log (battery_capacity / model_constant + 1) * battery_nominal_voltage

/-- solar_power_max = 150 (W) -/
def solar_power_max : ℝ := 150

/-- load_power_const = 100 (W) -/
def load_power_const : ℝ := 100

/-- sim_interval = 1 (seconds), set at the top of the `V_sim` startup loop. -/
def sim_interval : ℝ := 1

/-- deltaT = sim_interval * hours_per_second (hours), the tick size of the loop. -/
noncomputable def deltaT : ℝ := sim_interval * hours_per_second

/-- eclipse_half_duration = 3600 (seconds), set in `__init__`. -/
def eclipse_half_duration : ℝ := 3600

/-! ## ChargeModel: the V_sim/I_sim update of one tick (lines 140-162) -/

/-- deltaV = charging_power * deltaT * battery_nominal_voltage
           / (model_constant * exp(Vsim_value / battery_nominal_voltage)),
the voltage increment of lines 148-149 and 157-158, with the tick size a
parameter `dT`. -/
noncomputable def deltaV (charging_power dT v : ℝ) : ℝ :=
  charging_power * dT * battery_nominal_voltage /
    (model_constant * Real.exp (v / battery_nominal_voltage))

open Classical in
/-- The charge/discharge update of one tick of the startup loop
(lines 143-162): given the current simulated voltage `v`, simulated
current `i`, target voltage `vt`, solar power `sp` and tick size `dT`,
return the pair (next V_sim, next I_sim).  When neither branch fires the
PVs are not written, so the old pair is returned. -/
noncomputable def chargeModel (v i vt sp dT : ℝ) : ℝ × ℝ :=
  let charging_power := sp - load_power_const
  if charging_power > 0 ∧ v < vt then
    (min (v + deltaV charging_power dT v) vt, 0)
  else if charging_power < 0 then
    (max (v + deltaV charging_power dT v) 0, charging_power / v)
  else
    (v, i)

/-! ## EclipseModel: the Solar_power update of one tick (lines 165-174) -/

/-- Outcome of the eclipse branch of the loop: write a new solar power,
clear the eclipse flag, or do nothing. -/
inductive EclipseStep where
  | setSolar (w : ℝ)
  | clearEclipse
  | noUpdate

open Classical in
/-- The eclipse-model branch of the loop (lines 166-174), as a function of
`phase = (sim_time - eclipse_begin) / eclipse_half_duration` and of the
startup solar power `init_sp`. -/
noncomputable def eclipseModel (phase init_sp : ℝ) : EclipseStep :=
  if 0 < phase ∧ phase ≤ 1 then
    .setSolar (init_sp * Real.cos (0.5 * Real.pi * phase))
  else if 1 < phase ∧ phase ≤ 2 then
    .setSolar (-init_sp * Real.cos (0.5 * Real.pi * phase))
  else if 2 < phase then
    .clearEclipse
  else
    .noUpdate

/-! ## Simulator state -/

/-- The mutable state of the simulator: the PV values plus the instance
attributes set in `__init__` (`sim_time`, `eclipse_begin`,
`init_solar_power`).  `Eclipse` is the committed enum index (0 or 1). -/
structure SimState where
  Vsim : ℝ
  Isim : ℝ
  Vtarget : ℝ
  SolarPower : ℝ
  Eclipse : ℕ
  simTime : ℝ
  eclipseBegin : ℝ
  initSolarPower : ℝ

/-- The state right after `__init__` with the default PV values of the
source (V_sim=32.0, I_sim=0.0, V_target=34.0, Solar_power=110.0,
Eclipse=0, sim_time=0.0, init_solar_power = Solar_power.value = 110.0). -/
def initialState : SimState :=
  { Vsim := 32, Isim := 0, Vtarget := 34, SolarPower := 110,
    Eclipse := 0, simTime := 0, eclipseBegin := 0, initSolarPower := 110 }

/-! ## Validated putters -/

/-- The V_target putter (lines 180-186): commit max(0.0, min(value, max_voltage)). -/
noncomputable def vTargetPutter (value : ℝ) : ℝ :=
  max 0 (min value max_voltage)

/-- A value written to the Eclipse PV: either a string or a number
(Python `int` or `float`, modelled as a rational). -/
inductive PutValue where
  | str (s : String)
  | num (x : ℚ)

/-- Python `int(x)` on a float: truncation toward zero. -/
def truncQ (x : ℚ) : ℤ :=
  if 0 ≤ x then ⌊x⌋ else ⌈x⌉

/-- Model of `enum_strings.index(value)` for enum_strings = ['Non-Eclipse', 'Eclipse'],
`none` modelling the ValueError. -/
def enumIndex (s : String) : Option ℕ :=
  if s = "Non-Eclipse" then some 0
  else if s = "Eclipse" then some 1
  else none

/-- The Eclipse putter (lines 188-215).  The committed value is stored in
the `Eclipse` field of the returned state; the side effects (recording
`eclipse_begin` on 0→1, restoring `Solar_power` on 1→0) update the other
fields.  An unrecognized string or a numeric whose `int()` is not in
`range(2)` leaves the state unchanged (the prior value is re-committed). -/
def eclipsePutter (st : SimState) (value : PutValue) : SimState :=
  match value with
  | .str s =>
    match enumIndex s with
    | some n =>
      if n = 1 ∧ st.Eclipse = 0 then
        { st with eclipseBegin := st.simTime, Eclipse := n }
      else if n = 0 ∧ st.Eclipse = 1 then
        { st with SolarPower := st.initSolarPower, Eclipse := n }
      else
        { st with Eclipse := n }
    | none => st
  | .num x =>
    let n := truncQ x
    if n = 0 ∨ n = 1 then
      if n = 1 ∧ st.Eclipse = 0 then
        { st with eclipseBegin := st.simTime, Eclipse := n.toNat }
      else if n = 0 ∧ st.Eclipse = 1 then
        { st with SolarPower := st.initSolarPower, Eclipse := n.toNat }
      else
        { st with Eclipse := n.toNat }
    else st

/-- Predicate: `value` resolves to committed index `n` in the Eclipse putter: either
the string is the `n`-th enum entry, or the numeric truncates to `n` with
`int(value) in range(2)`. -/
def resolvesTo (value : PutValue) (n : ℕ) : Prop :=
  match value with
  | .str s => enumIndex s = some n
  | .num x => (truncQ x = 0 ∨ truncQ x = 1) ∧ truncQ x = (n : ℤ)

/-! ## One tick of the control loop -/

open Classical in
/-- One iteration of the `while True` loop of the `V_sim` startup method
(lines 138-178): apply the charge model, then, when in eclipse, the
eclipse model (`phase > 2` writes 0 to the Eclipse PV, which goes through
the Eclipse putter and so restores the solar power), then advance
`sim_time` by `sim_interval`. -/
noncomputable def tick (s : SimState) : SimState :=
  let p := chargeModel s.Vsim s.Isim s.Vtarget s.SolarPower deltaT
  let s1 := { s with Vsim := p.1, Isim := p.2 }
  let s2 :=
    if s1.Eclipse = 1 then
      match eclipseModel ((s1.simTime - s1.eclipseBegin) / eclipse_half_duration)
          s1.initSolarPower with
      | .setSolar w => { s1 with SolarPower := w }
      | .clearEclipse => eclipsePutter s1 (.num 0)
      | .noUpdate => s1
    else s1
  { s2 with simTime := s2.simTime + sim_interval }

/-! ## Startup validation (lines 114-126 and `__main__`) -/

/-- The `__init__` range checks on the default values: `initOK` stays
true iff none of the three checks fires. -/
def initOK (vsim solar vtarget : ℝ) : Prop :=
  ¬(vsim < 0 ∨ vsim > max_voltage) ∧
  ¬(solar < 0 ∨ solar > solar_power_max) ∧
  ¬(vtarget < 0 ∨ vtarget > max_voltage)

/-- What `__main__` does after constructing the IOC: either it exits with
an error before serving, or it runs the loop. -/
inductive MainOutcome where
  | startupFailed
  | loopRunning
deriving DecidableEq

open Classical in
/-- Model of `__main__` (lines 218-227): if `initOK` is false, print/log the
failure and `sys.exit(1)` — the loop never starts; otherwise `run` the
IOC, starting the loop. -/
noncomputable def mainOutcome (vsim solar vtarget : ℝ) : MainOutcome :=
  if initOK vsim solar vtarget then .loopRunning else .startupFailed

/-! ## Arithmetic facts about the constants -/

lemma max_voltage_eq : max_voltage = Real.log (23 / 8) * 34 := by
  unfold max_voltage battery_capacity model_constant battery_nominal_voltage
  norm_num

lemma max_voltage_pos : 0 < max_voltage := by
  rw [max_voltage_eq]
  have h : 0 < Real.log (23 / 8) := Real.log_pos (by norm_num)
  nlinarith

lemma thirtyfour_lt_max_voltage : 34 < max_voltage := by
  rw [max_voltage_eq]
  have h : 1 < Real.log (23 / 8) := by
    rw [Real.lt_log_iff_exp_lt (by norm_num : (0:ℝ) < 23 / 8)]
    calc Real.exp 1 < 2.7182818286 := Real.exp_one_lt_d9
    _ < 23 / 8 := by norm_num
  nlinarith

lemma max_voltage_lt_64 : max_voltage < 64 := by
  rw [max_voltage_eq]
  have h : Real.log (23 / 8) ≤ 23 / 8 - 1 :=
    Real.log_le_sub_one_of_pos (by norm_num)
  nlinarith

/-! ## Claim theorems -/

/-- Claim C1: when net power is positive and the voltage is below target,
the charging branch yields
`nextV = min(v + netPower*dT*Vn/(c*exp(v/Vn)), vt)` and current 0; at the
default battery with v=32, vt=34, solar=110, load=100, dT=1/3600 the tick
advances the voltage by exactly `10*(1/3600)*34/(80*exp(32/34))` and sets
the current to 0. -/
theorem charging_branch_correct :
    (∀ v i vt sp dT : ℝ, sp - load_power_const > 0 → v < vt →
      chargeModel v i vt sp dT =
        (min (v + (sp - load_power_const) * dT * battery_nominal_voltage /
          (model_constant * Real.exp (v / battery_nominal_voltage))) vt, 0)) ∧
    (∀ i : ℝ, chargeModel 32 i 34 110 (1 / 3600) =
      (32 + 10 * (1 / 3600) * 34 / (80 * Real.exp (32 / 34)), 0)) := by
  constructor
  · intro v i vt sp dT hp hv
    rw [chargeModel, if_pos ⟨hp, hv⟩]
    rfl
  · intro i
    have hp : (110 : ℝ) - load_power_const > 0 := by
      unfold load_power_const; norm_num
    rw [chargeModel, if_pos ⟨hp, by norm_num⟩]
    have hE : (1 : ℝ) ≤ Real.exp (32 / battery_nominal_voltage) :=
      Real.one_le_exp (by unfold battery_nominal_voltage; positivity)
    have hEpos : (0 : ℝ) < Real.exp (32 / battery_nominal_voltage) :=
      Real.exp_pos _
    have hd : deltaV (110 - load_power_const) (1 / 3600) 32 ≤ 2 := by
      unfold deltaV load_power_const battery_nominal_voltage model_constant
      rw [div_le_iff₀ (by positivity)]
      unfold battery_nominal_voltage at hE
      nlinarith
    have hmin : min (32 + deltaV (110 - load_power_const) (1 / 3600) 32) 34 =
        32 + deltaV (110 - load_power_const) (1 / 3600) 32 :=
      min_eq_left (by linarith)
    rw [hmin]
    unfold deltaV load_power_const battery_nominal_voltage model_constant
    norm_num

/-- Claim C1 witness: the general charging-branch formula instantiated at
the scenario-1 inputs. -/
theorem charging_branch_correct_witness :
    chargeModel 32 0 34 110 (1 / 3600) =
      (min (32 + (110 - load_power_const) * (1 / 3600) * battery_nominal_voltage /
        (model_constant * Real.exp (32 / battery_nominal_voltage))) 34, 0) :=
  charging_branch_correct.1 32 0 34 110 (1 / 3600)
    (by unfold load_power_const; norm_num) (by norm_num)

/-- Claim C2: when net power is negative the discharge branch yields
current `netPower / v` (with the not-yet-updated voltage `v` as
denominator) and voltage `max(v + deltaV, 0)`; at v=32, solar=0,
load=100, dT=1/3600 the current is -100/32 = -3.125 A and the voltage
strictly decreases while staying ≥ 0 (the floor at 0 in the formula). -/
theorem discharging_branch_correct :
    (∀ v i vt sp dT : ℝ, sp - load_power_const < 0 →
      chargeModel v i vt sp dT =
        (max (v + (sp - load_power_const) * dT * battery_nominal_voltage /
          (model_constant * Real.exp (v / battery_nominal_voltage))) 0,
          (sp - load_power_const) / v)) ∧
    (∀ i : ℝ, (chargeModel 32 i 34 0 (1 / 3600)).2 = -3.125 ∧
      (chargeModel 32 i 34 0 (1 / 3600)).1 < 32 ∧
      0 ≤ (chargeModel 32 i 34 0 (1 / 3600)).1) := by
  have hbranch : ∀ v i vt sp dT : ℝ, sp - load_power_const < 0 →
      chargeModel v i vt sp dT =
        (max (v + deltaV (sp - load_power_const) dT v) 0,
          (sp - load_power_const) / v) := by
    intro v i vt sp dT hn
    rw [chargeModel, if_neg, if_pos hn]
    rintro ⟨h1, -⟩
    linarith
  refine ⟨fun v i vt sp dT hn => by rw [hbranch v i vt sp dT hn]; rfl, fun i => ?_⟩
  have hn : (0 : ℝ) - load_power_const < 0 := by unfold load_power_const; norm_num
  rw [hbranch 32 i 34 0 (1 / 3600) hn]
  have hEpos : (0 : ℝ) < Real.exp (32 / battery_nominal_voltage) := Real.exp_pos _
  have hE1 : (1 : ℝ) ≤ Real.exp (32 / battery_nominal_voltage) :=
    Real.one_le_exp (by unfold battery_nominal_voltage; positivity)
  have hneg : deltaV (0 - load_power_const) (1 / 3600) 32 < 0 := by
    unfold deltaV load_power_const battery_nominal_voltage model_constant
    apply div_neg_of_neg_of_pos
    · norm_num
    · unfold battery_nominal_voltage at hEpos
      positivity
  have hlb : -1 < deltaV (0 - load_power_const) (1 / 3600) 32 := by
    unfold deltaV load_power_const battery_nominal_voltage model_constant
    rw [lt_div_iff₀ (by unfold battery_nominal_voltage at hEpos; positivity)]
    unfold battery_nominal_voltage at hE1
    nlinarith
  have hmax : max (32 + deltaV (0 - load_power_const) (1 / 3600) 32) 0 =
      32 + deltaV (0 - load_power_const) (1 / 3600) 32 :=
    max_eq_left (by linarith)
  refine ⟨by unfold load_power_const; norm_num, ?_, ?_⟩
  · rw [hmax]; simp only []; linarith
  · rw [hmax]; simp only []; linarith

/-- Claim C2 witness: the general discharge-branch formula instantiated
at the scenario-2 inputs. -/
theorem discharging_branch_correct_witness :
    chargeModel 32 0 34 0 (1 / 3600) =
      (max (32 + (0 - load_power_const) * (1 / 3600) * battery_nominal_voltage /
        (model_constant * Real.exp (32 / battery_nominal_voltage))) 0,
        (0 - load_power_const) / 32) :=
  discharging_branch_correct.1 32 0 34 0 (1 / 3600)
    (by unfold load_power_const; norm_num)

/-! ### Helper lemmas about the tick and the putter (field preservation) -/

lemma deltaV_nonneg {cp dT v : ℝ} (hcp : 0 ≤ cp) (hdT : 0 ≤ dT) :
    0 ≤ deltaV cp dT v := by
  unfold deltaV battery_nominal_voltage model_constant
  apply div_nonneg
  · nlinarith
  · positivity

lemma deltaV_nonpos {cp dT v : ℝ} (hcp : cp ≤ 0) (hdT : 0 ≤ dT) :
    deltaV cp dT v ≤ 0 := by
  unfold deltaV battery_nominal_voltage model_constant
  apply div_nonpos_iff.mpr
  exact Or.inr ⟨by nlinarith, by positivity⟩

lemma deltaT_nonneg : (0 : ℝ) ≤ deltaT := by
  unfold deltaT sim_interval hours_per_second seconds_per_hour
  norm_num

lemma eclipsePutter_fields (st : SimState) (value : PutValue) :
    (eclipsePutter st value).Vsim = st.Vsim ∧
    (eclipsePutter st value).Isim = st.Isim ∧
    (eclipsePutter st value).Vtarget = st.Vtarget ∧
    (eclipsePutter st value).simTime = st.simTime ∧
    (eclipsePutter st value).initSolarPower = st.initSolarPower := by
  rcases value with s | x
  · unfold eclipsePutter
    rcases h : enumIndex s with - | n <;> simp only [h]
    · simp
    · split_ifs <;> exact ⟨rfl, rfl, rfl, rfl, rfl⟩
  · unfold eclipsePutter
    dsimp only
    split_ifs <;> exact ⟨rfl, rfl, rfl, rfl, rfl⟩

lemma tick_fields (s : SimState) :
    (tick s).Vsim = (chargeModel s.Vsim s.Isim s.Vtarget s.SolarPower deltaT).1 ∧
    (tick s).Vtarget = s.Vtarget ∧
    (tick s).initSolarPower = s.initSolarPower := by
  unfold tick
  dsimp only
  split
  · split
    · exact ⟨rfl, rfl, rfl⟩
    · exact ⟨(eclipsePutter_fields _ _).1, (eclipsePutter_fields _ _).2.2.1,
        (eclipsePutter_fields _ _).2.2.2.2⟩
    · exact ⟨rfl, rfl, rfl⟩
  · exact ⟨rfl, rfl, rfl⟩

/-- Claim C3: for a single tick with valid inputs the charge model keeps
the voltage in `[0, targetV]` when charging and `≥ 0` when discharging,
and in every case inside `[0, max_voltage]`; consequently a tick of the
loop keeps the published simulated voltage inside `[0, max_voltage]`. -/
theorem voltage_stays_in_range :
    (∀ v i vt sp dT : ℝ, 0 ≤ dT → 0 ≤ v → 0 ≤ vt →
      (sp - load_power_const > 0 → v < vt →
        0 ≤ (chargeModel v i vt sp dT).1 ∧ (chargeModel v i vt sp dT).1 ≤ vt) ∧
      (sp - load_power_const < 0 → 0 ≤ (chargeModel v i vt sp dT).1) ∧
      (v ≤ max_voltage → vt ≤ max_voltage →
        0 ≤ (chargeModel v i vt sp dT).1 ∧
        (chargeModel v i vt sp dT).1 ≤ max_voltage)) ∧
    (∀ s : SimState, 0 ≤ s.Vsim → s.Vsim ≤ max_voltage →
      0 ≤ s.Vtarget → s.Vtarget ≤ max_voltage →
      0 ≤ (tick s).Vsim ∧ (tick s).Vsim ≤ max_voltage ∧
      (tick s).Vtarget = s.Vtarget) := by
  have main : ∀ v i vt sp dT : ℝ, 0 ≤ dT → 0 ≤ v → 0 ≤ vt →
      (sp - load_power_const > 0 → v < vt →
        0 ≤ (chargeModel v i vt sp dT).1 ∧ (chargeModel v i vt sp dT).1 ≤ vt) ∧
      (sp - load_power_const < 0 → 0 ≤ (chargeModel v i vt sp dT).1) ∧
      (v ≤ max_voltage → vt ≤ max_voltage →
        0 ≤ (chargeModel v i vt sp dT).1 ∧
        (chargeModel v i vt sp dT).1 ≤ max_voltage) := by
    intro v i vt sp dT hdT hv hvt
    have hchg : sp - load_power_const > 0 → v < vt →
        0 ≤ (chargeModel v i vt sp dT).1 ∧ (chargeModel v i vt sp dT).1 ≤ vt := by
      intro hp hlt
      rw [chargeModel, if_pos ⟨hp, hlt⟩]
      have hd : 0 ≤ deltaV (sp - load_power_const) dT v :=
        deltaV_nonneg (le_of_lt hp) hdT
      exact ⟨le_min (by linarith) hvt, min_le_right _ _⟩
    have hdis : sp - load_power_const < 0 →
        0 ≤ (chargeModel v i vt sp dT).1 := by
      intro hn
      rw [chargeModel, if_neg (by rintro ⟨h1, -⟩; linarith), if_pos hn]
      exact le_max_right _ _
    refine ⟨hchg, hdis, fun hvM hvtM => ?_⟩
    by_cases h1 : sp - load_power_const > 0 ∧ v < vt
    · obtain ⟨hlow, hhigh⟩ := hchg h1.1 h1.2
      exact ⟨hlow, le_trans hhigh hvtM⟩
    · by_cases h2 : sp - load_power_const < 0
      · refine ⟨hdis h2, ?_⟩
        rw [chargeModel, if_neg h1, if_pos h2]
        have hd : deltaV (sp - load_power_const) dT v ≤ 0 :=
          deltaV_nonpos (le_of_lt h2) hdT
        exact max_le (by linarith) (le_of_lt max_voltage_pos)
      · rw [chargeModel, if_neg h1, if_neg h2]
        exact ⟨hv, hvM⟩
  refine ⟨main, fun s h0 hM ht0 htM => ?_⟩
  obtain ⟨hVsim, hVt, -⟩ := tick_fields s
  rw [hVsim, hVt]
  obtain ⟨-, -, hrange⟩ :=
    main s.Vsim s.Isim s.Vtarget s.SolarPower deltaT deltaT_nonneg h0 ht0
  obtain ⟨hl, hh⟩ := hrange hM htM
  exact ⟨hl, hh, rfl⟩

/-- Claim C3 witness: the range bounds instantiated at the default state
and at the scenario-1 tick inputs. -/
theorem voltage_stays_in_range_witness :
    (0 ≤ (chargeModel 32 0 34 110 (1 / 3600)).1 ∧
      (chargeModel 32 0 34 110 (1 / 3600)).1 ≤ max_voltage) ∧
    (0 ≤ (tick initialState).Vsim ∧ (tick initialState).Vsim ≤ max_voltage ∧
      (tick initialState).Vtarget = initialState.Vtarget) := by
  have h34 : (34 : ℝ) ≤ max_voltage := le_of_lt thirtyfour_lt_max_voltage
  refine ⟨?_, ?_⟩
  · exact (voltage_stays_in_range.1 32 0 34 110 (1 / 3600) (by norm_num)
      (by norm_num) (by norm_num)).2.2 (by linarith) h34
  · exact voltage_stays_in_range.2 initialState (by norm_num [initialState])
      (by simp only [initialState]; linarith) (by norm_num [initialState])
      (by simp only [initialState]; linarith)

/-- Claim C6: the target-voltage putter commits
`clamp(requested, 0, max_voltage)`: the committed value is `max 0 (min
value max_voltage)`, always lies in `[0, max_voltage]`, and equals the
request whenever the request is already in range. -/
theorem target_setter_clamps :
    (∀ value : ℝ, vTargetPutter value = max 0 (min value max_voltage)) ∧
    (∀ value : ℝ, 0 ≤ vTargetPutter value ∧ vTargetPutter value ≤ max_voltage ∧
      (0 ≤ value → value ≤ max_voltage → vTargetPutter value = value)) := by
  refine ⟨fun value => rfl, fun value => ⟨le_max_left _ _, ?_, fun h0 hM => ?_⟩⟩
  · exact max_le (le_of_lt max_voltage_pos) (min_le_right _ _)
  · unfold vTargetPutter
    rw [min_eq_left hM, max_eq_right h0]

/-- Claim C6 witness: a request of 20 V is in range and commits
unchanged, inside `[0, max_voltage]`. -/
theorem target_setter_clamps_witness :
    0 ≤ vTargetPutter 20 ∧ vTargetPutter 20 ≤ max_voltage ∧ vTargetPutter 20 = 20 := by
  obtain ⟨h0, hM, hid⟩ := target_setter_clamps.2 20
  exact ⟨h0, hM, hid (by norm_num) (by linarith [thirtyfour_lt_max_voltage])⟩

/-- Claim C7: if any default value (simulated voltage, solar power,
target voltage) is outside its validity range, `__main__` exits with a
failure before the loop starts: the outcome is `startupFailed`, never
`loopRunning`. -/
theorem startup_validation_aborts :
    ∀ vsim solar vtarget : ℝ,
      (vsim < 0 ∨ vsim > max_voltage ∨ solar < 0 ∨ solar > solar_power_max ∨
        vtarget < 0 ∨ vtarget > max_voltage) →
      mainOutcome vsim solar vtarget = .startupFailed := by
  intro vsim solar vtarget h
  rw [mainOutcome, if_neg]
  rintro ⟨n1, n2, n3⟩
  rcases h with h | h | h | h | h | h
  · exact n1 (Or.inl h)
  · exact n1 (Or.inr h)
  · exact n2 (Or.inl h)
  · exact n2 (Or.inr h)
  · exact n3 (Or.inl h)
  · exact n3 (Or.inr h)

/-- Claim C7 witness: a default simulated voltage of 64 V exceeds
`max_voltage` (which is below 64), so startup fails. -/
theorem startup_validation_aborts_witness :
    mainOutcome 64 110 34 = .startupFailed :=
  startup_validation_aborts 64 110 34 (Or.inr (Or.inl max_voltage_lt_64))

/-- Claim C4 counterexample: the numeric write 3/2 (Python float 1.5) is
none of "Non-Eclipse"/"Eclipse"/0/1, yet the Eclipse putter does not
re-commit the prior value 0 — `int(1.5) = 1` is in `range(2)`, so it
commits 1 and records an eclipse onset. -/
theorem eclipse_put_fractional_accepted :
    (eclipsePutter initialState (PutValue.num (3 / 2))).Eclipse = 1 ∧
    initialState.Eclipse = 0 := by
  have ht : truncQ (3 / 2) = 1 := by
    unfold truncQ
    rw [if_pos (by norm_num)]
    norm_num [Int.floor_eq_iff]
  constructor
  · unfold eclipsePutter
    dsimp only
    rw [ht]
    norm_num [initialState]
  · rfl

/-- Claim C4 amended: the Eclipse putter is a no-op exactly for
unrecognized strings and for numerics whose truncation toward zero is
outside `{0, 1}` (i.e. value ≤ -1 or value ≥ 2); numerics inside `(-1,
2)` are accepted as their truncation. -/
theorem eclipse_put_reject_noop :
    (∀ (st : SimState) (s : String), enumIndex s = none →
      eclipsePutter st (.str s) = st) ∧
    (∀ (st : SimState) (x : ℚ), x ≤ -1 ∨ 2 ≤ x →
      eclipsePutter st (.num x) = st) ∧
    (∀ (st : SimState) (x : ℚ), -1 < x → x < 2 →
      (eclipsePutter st (.num x)).Eclipse = (truncQ x).toNat) := by
  refine ⟨fun st s h => ?_, fun st x h => ?_, fun st x hl hr => ?_⟩
  · simp only [eclipsePutter, h]
  · have hout : truncQ x ≤ -1 ∨ 2 ≤ truncQ x := by
      rcases h with h | h
      · left
        unfold truncQ
        rw [if_neg (by push_neg; linarith)]
        rw [show (-1 : ℤ) = ((-1 : ℤ) : ℤ) from rfl, Int.ceil_le]
        push_cast
        linarith
      · right
        unfold truncQ
        rw [if_pos (by linarith), show (2 : ℤ) = ((2 : ℤ) : ℤ) from rfl, Int.le_floor]
        push_cast
        linarith
    unfold eclipsePutter
    dsimp only
    rw [if_neg]
    omega
  · have hin : truncQ x = 0 ∨ truncQ x = 1 := by
      unfold truncQ
      split_ifs with h0
      · have h1 : ⌊x⌋ < 2 := Int.floor_lt.mpr (by push_cast; linarith)
        have h2 : 0 ≤ ⌊x⌋ := Int.le_floor.mpr (by push_cast; linarith)
        omega
      · have h1 : ⌈x⌉ ≤ 0 := Int.ceil_le.mpr (by push_cast; linarith)
        have h2 : -1 < ⌈x⌉ := Int.lt_ceil.mpr (by push_cast; linarith)
        omega
    unfold eclipsePutter
    dsimp only
    rw [if_pos hin]
    split_ifs <;> rfl

/-- Claim C4 amended witness: the numeric 5 and the string "Twilight"
are both rejected with the state unchanged. -/
theorem eclipse_put_reject_noop_witness :
    eclipsePutter initialState (.num 5) = initialState ∧
    eclipsePutter initialState (.str "Twilight") = initialState :=
  ⟨eclipse_put_reject_noop.2.1 initialState 5 (Or.inr (by norm_num)),
    eclipse_put_reject_noop.1 initialState "Twilight" (by decide)⟩

lemma setEclipse_self (st : SimState) : { st with Eclipse := st.Eclipse } = st := by
  cases st
  rfl

/-- Claim C5: a write resolving to 1 while not in eclipse records
`eclipse_begin = sim_time` (solar power untouched); a write resolving to
0 while in eclipse restores the solar power to `init_solar_power`, which
the loop never changes, whatever the eclipse model wrote meanwhile; a
write resolving to the current value commits it and changes nothing. -/
theorem eclipse_transition_effects :
    (∀ (st : SimState) (value : PutValue), resolvesTo value 1 → st.Eclipse = 0 →
      (eclipsePutter st value).eclipseBegin = st.simTime ∧
      (eclipsePutter st value).Eclipse = 1 ∧
      (eclipsePutter st value).SolarPower = st.SolarPower) ∧
    (∀ (st : SimState) (value : PutValue), resolvesTo value 0 → st.Eclipse = 1 →
      (eclipsePutter st value).SolarPower = st.initSolarPower ∧
      (eclipsePutter st value).Eclipse = 0) ∧
    (∀ (st : SimState) (value : PutValue) (n : ℕ), resolvesTo value n →
      st.Eclipse = n → eclipsePutter st value = st) ∧
    (∀ s : SimState, (tick s).initSolarPower = s.initSolarPower) := by
  refine ⟨fun st value hres hE => ?_, fun st value hres hE => ?_,
    fun st value n hres hE => ?_, fun s => (tick_fields s).2.2⟩
  · rcases value with s | x
    · simp only [resolvesTo] at hres
      simp only [eclipsePutter, hres]
      rw [if_pos ⟨trivial, hE⟩]
      exact ⟨rfl, rfl, rfl⟩
    · obtain ⟨hmem, hx⟩ := hres
      have hx1 : truncQ x = 1 := by exact_mod_cast hx
      simp only [eclipsePutter]
      rw [if_pos hmem, if_pos ⟨hx1, hE⟩, hx1]
      exact ⟨rfl, rfl, rfl⟩
  · rcases value with s | x
    · simp only [resolvesTo] at hres
      simp only [eclipsePutter, hres]
      rw [if_neg (by rintro ⟨h1, -⟩; omega), if_pos ⟨trivial, hE⟩]
      exact ⟨rfl, rfl⟩
    · obtain ⟨hmem, hx⟩ := hres
      have hx0 : truncQ x = 0 := by exact_mod_cast hx
      simp only [eclipsePutter]
      rw [if_pos hmem, if_neg (by rintro ⟨h1, -⟩; omega), if_pos ⟨hx0, hE⟩, hx0]
      exact ⟨rfl, rfl⟩
  · rcases value with s | x
    · simp only [resolvesTo] at hres
      simp only [eclipsePutter, hres]
      rw [if_neg (by rintro ⟨h1, h0⟩; omega), if_neg (by rintro ⟨h1, h0⟩; omega),
        ← hE, setEclipse_self]
    · obtain ⟨hmem, hx⟩ := hres
      simp only [eclipsePutter]
      rw [if_pos hmem, if_neg (by rintro ⟨h1, h0⟩; omega),
        if_neg (by rintro ⟨h1, h0⟩; omega), hx, Int.toNat_natCast, ← hE,
        setEclipse_self]

/-- Claim C5 witness: the transitions instantiated at the default state
(onset recording via the string "Eclipse", restoration via the numeric
0, and the no-op 0→0). -/
theorem eclipse_transition_effects_witness :
    ((eclipsePutter initialState (.str "Eclipse")).eclipseBegin = initialState.simTime ∧
      (eclipsePutter initialState (.str "Eclipse")).Eclipse = 1 ∧
      (eclipsePutter initialState (.str "Eclipse")).SolarPower = initialState.SolarPower) ∧
    ((eclipsePutter { initialState with Eclipse := 1 } (.num 0)).SolarPower =
        ({ initialState with Eclipse := 1 } : SimState).initSolarPower ∧
      (eclipsePutter { initialState with Eclipse := 1 } (.num 0)).Eclipse = 0) ∧
    eclipsePutter initialState (.num 0) = initialState ∧
    (tick initialState).initSolarPower = initialState.initSolarPower :=
  ⟨eclipse_transition_effects.1 initialState (.str "Eclipse") rfl rfl,
    eclipse_transition_effects.2.1 { initialState with Eclipse := 1 } (.num 0)
      (by exact ⟨Or.inl (by decide), by decide⟩) rfl,
    eclipse_transition_effects.2.2.1 initialState (.num 0) 0
      (by exact ⟨Or.inl (by decide), by decide⟩) rfl,
    eclipse_transition_effects.2.2.2 initialState⟩

/-! ### Bounds on the eclipse-model formulas -/

lemma eclipseModel_setSolar_bounds {phase init_sp w : ℝ} (h0 : 0 ≤ init_sp)
    (h : eclipseModel phase init_sp = .setSolar w) : 0 ≤ w ∧ w ≤ init_sp := by
  unfold eclipseModel at h
  split_ifs at h with h1 h2 h3
  · obtain ⟨hp0, hp1⟩ := h1
    injection h with h
    subst h
    have hc0 : 0 ≤ Real.cos (0.5 * Real.pi * phase) :=
      Real.cos_nonneg_of_mem_Icc
        ⟨by nlinarith [Real.pi_pos], by nlinarith [Real.pi_pos]⟩
    have hc1 : Real.cos (0.5 * Real.pi * phase) ≤ 1 := Real.cos_le_one _
    constructor
    · exact mul_nonneg h0 hc0
    · nlinarith
  · obtain ⟨hp1, hp2⟩ := h2
    injection h with h
    subst h
    have hcn : Real.cos (0.5 * Real.pi * phase) ≤ 0 :=
      Real.cos_nonpos_of_pi_div_two_le_of_le (by nlinarith [Real.pi_pos])
        (by nlinarith [Real.pi_pos])
    have hcm : -1 ≤ Real.cos (0.5 * Real.pi * phase) := Real.neg_one_le_cos _
    constructor
    · nlinarith
    · nlinarith

/-- Claim C9: every solar power the eclipse branch writes lies in
`[0, init_solar_power]`; the startup validation pins the captured
`init_solar_power` inside `[0, solar_power_max]`; hence every written
solar power stays inside `[0, solar_power_max]` without re-clamping. -/
theorem eclipse_solar_power_bounded :
    (∀ phase init_sp w : ℝ, 0 ≤ init_sp →
      eclipseModel phase init_sp = .setSolar w → 0 ≤ w ∧ w ≤ init_sp) ∧
    (∀ vsim solar vtarget : ℝ, initOK vsim solar vtarget →
      0 ≤ solar ∧ solar ≤ solar_power_max) ∧
    (∀ phase init_sp w : ℝ, 0 ≤ init_sp → init_sp ≤ solar_power_max →
      eclipseModel phase init_sp = .setSolar w → 0 ≤ w ∧ w ≤ solar_power_max) := by
  refine ⟨fun phase init_sp w h0 h => eclipseModel_setSolar_bounds h0 h,
    fun vsim solar vtarget hOK => ?_, fun phase init_sp w h0 hM h => ?_⟩
  · obtain ⟨-, n2, -⟩ := hOK
    push_neg at n2
    exact n2
  · obtain ⟨hl, hu⟩ := eclipseModel_setSolar_bounds h0 h
    exact ⟨hl, le_trans hu hM⟩

/-- Claim C9 witness: at phase 1/2 (mid-entry) with the default startup
solar power 110, the written value `110*cos(π/4)` lies in `[0, 110]` and
in `[0, solar_power_max]`; the default startup values pass `initOK`. -/
theorem eclipse_solar_power_bounded_witness :
    (0 ≤ (110 : ℝ) * Real.cos (0.5 * Real.pi * (1 / 2)) ∧
      (110 : ℝ) * Real.cos (0.5 * Real.pi * (1 / 2)) ≤ solar_power_max) ∧
    (0 ≤ (110 : ℝ) ∧ (110 : ℝ) ≤ solar_power_max) := by
  have hOK : initOK 32 110 34 := by
    have h34 := thirtyfour_lt_max_voltage
    refine ⟨?_, ?_, ?_⟩
    · push_neg
      exact ⟨by norm_num, by linarith⟩
    · push_neg
      exact ⟨by norm_num, by unfold solar_power_max; norm_num⟩
    · push_neg
      exact ⟨by norm_num, by linarith⟩
  have hset : eclipseModel (1 / 2) 110 = .setSolar (110 * Real.cos (0.5 * Real.pi * (1 / 2))) := by
    rw [eclipseModel, if_pos (by norm_num)]
  refine ⟨?_, eclipse_solar_power_bounded.2.1 32 110 34 hOK⟩
  exact eclipse_solar_power_bounded.2.2 (1 / 2) 110 _ (by norm_num)
    (by unfold solar_power_max; norm_num) hset

/-- Claim C10: at phase 1 both branch formulas evaluate to exactly 0 (and
the model writes solar power 0); as the phase tends to 0 from above the
entry formula tends to `init_solar_power`; for phase ≤ 0 the model makes
no update. -/
theorem eclipse_model_boundary :
    (∀ init_sp : ℝ, init_sp * Real.cos (0.5 * Real.pi * 1) = 0 ∧
      -init_sp * Real.cos (0.5 * Real.pi * 1) = 0 ∧
      eclipseModel 1 init_sp = .setSolar 0) ∧
    (∀ init_sp : ℝ,
      Filter.Tendsto (fun phase => init_sp * Real.cos (0.5 * Real.pi * phase))
        (nhdsWithin 0 (Set.Ioi 0)) (nhds init_sp)) ∧
    (∀ phase init_sp : ℝ, phase ≤ 0 → eclipseModel phase init_sp = .noUpdate) := by
  have hcos1 : Real.cos (0.5 * Real.pi * 1) = 0 := by
    rw [show (0.5 : ℝ) * Real.pi * 1 = Real.pi / 2 by ring, Real.cos_pi_div_two]
  refine ⟨fun init_sp => ⟨by rw [hcos1, mul_zero], by rw [hcos1, mul_zero], ?_⟩,
    fun init_sp => ?_, fun phase init_sp h => ?_⟩
  · rw [eclipseModel, if_pos ⟨by norm_num, le_refl 1⟩, hcos1, mul_zero]
  · have hc : Continuous fun phase : ℝ => init_sp * Real.cos (0.5 * Real.pi * phase) :=
      continuous_const.mul (Real.continuous_cos.comp (continuous_const.mul continuous_id))
    have ht := hc.tendsto 0
    rw [show init_sp * Real.cos (0.5 * Real.pi * 0) = init_sp by simp] at ht
    exact ht.mono_left nhdsWithin_le_nhds
  · rw [eclipseModel, if_neg (by rintro ⟨h1, -⟩; linarith),
      if_neg (by rintro ⟨h1, -⟩; linarith), if_neg (by linarith)]

/-- Claim C10 witness: the boundary facts at `init_solar_power = 110` and
the no-update case at phase -1. -/
theorem eclipse_model_boundary_witness :
    (110 : ℝ) * Real.cos (0.5 * Real.pi * 1) = 0 ∧
    eclipseModel (-1) 110 = .noUpdate :=
  ⟨(eclipse_model_boundary.1 110).1,
    eclipse_model_boundary.2.2 (-1) 110 (by norm_num)⟩

/-! ### The discharge-branch precondition (claim C8) -/

lemma deltaT_eq : deltaT = 1 / 3600 := by
  unfold deltaT sim_interval hours_per_second seconds_per_hour
  norm_num

lemma tick_solar_of_not_eclipse (s : SimState) (h : s.Eclipse ≠ 1) :
    (tick s).SolarPower = s.SolarPower := by
  unfold tick
  dsimp only
  rw [if_neg h]

/-- A state the validation accepts (voltage 0.001 V is inside
`[0, max_voltage]`) from which the loop drains the battery: after one
discharging tick the floor at 0 makes the voltage exactly 0. -/
noncomputable def drainState : SimState :=
  { Vsim := 1 / 1000, Isim := 0, Vtarget := 34, SolarPower := 0,
    Eclipse := 0, simTime := 0, eclipseBegin := 0, initSolarPower := 0 }

/-- Claim C8 evidence (code bug): `drainState` passes the startup
validation and has positive voltage, its tick takes the discharge
branch (net power -100 < 0) and floors the voltage to exactly 0, and the
next tick again satisfies the discharge-branch condition — so the loop
invokes the discharge branch with `voltageV = 0`, where
`netPowerW / voltageV` divides by zero, contradicting the guarantee the
claim ascribes to the caller. -/
theorem discharge_precondition_not_guaranteed :
    initOK drainState.Vsim drainState.SolarPower drainState.Vtarget ∧
    0 < drainState.Vsim ∧
    drainState.SolarPower - load_power_const < 0 ∧
    (tick drainState).Vsim = 0 ∧
    (tick drainState).SolarPower - load_power_const < 0 := by
  have h34 := thirtyfour_lt_max_voltage
  have eV : drainState.Vsim = 1 / 1000 := rfl
  have eI : drainState.Isim = 0 := rfl
  have eT : drainState.Vtarget = 34 := rfl
  have eS : drainState.SolarPower = 0 := rfl
  refine ⟨?_, by rw [eV]; norm_num, ?_, ?_, ?_⟩
  · rw [eV, eS, eT]
    refine ⟨?_, ?_, ?_⟩
    · push_neg
      exact ⟨by norm_num, by linarith⟩
    · push_neg
      exact ⟨le_refl 0, by unfold solar_power_max; norm_num⟩
    · push_neg
      exact ⟨by norm_num, by linarith⟩
  · rw [eS]
    unfold load_power_const
    norm_num
  · obtain ⟨hVs, -, -⟩ := tick_fields drainState
    rw [hVs, eV, eI, eT, eS]
    have hn : (0 : ℝ) - load_power_const < 0 := by
      unfold load_power_const; norm_num
    rw [chargeModel, if_neg (by rintro ⟨h1, -⟩; linarith), if_pos hn]
    apply max_eq_right
    have hE1 : (1 : ℝ) ≤ Real.exp (1 / 1000 / (34 : ℝ)) :=
      Real.one_le_exp (by norm_num)
    have hE3 : Real.exp (1 / 1000 / (34 : ℝ)) < 3 := by
      calc Real.exp (1 / 1000 / (34 : ℝ)) ≤ Real.exp 1 :=
            Real.exp_le_exp.mpr (by norm_num)
      _ < 2.7182818286 := Real.exp_one_lt_d9
      _ < 3 := by norm_num
    have hkey : deltaV (0 - load_power_const) deltaT (1 / 1000) ≤ -(1 / 1000) := by
      unfold deltaV load_power_const battery_nominal_voltage model_constant
      rw [deltaT_eq, div_le_iff₀ (by positivity)]
      nlinarith
    linarith
  · rw [tick_solar_of_not_eclipse drainState (by rw [show drainState.Eclipse = 0 from rfl]; omega), eS]
    unfold load_power_const
    norm_num

end BatterySim
